import Mathlib

set_option maxRecDepth 8000

/-!
Verification development for the text-to-cad frontend.

Shallow embedding of the parts of the codebase the claims are about:

* the binary STL parser of `ThreeJSManager.parseBinarySTL` (the plain
  source variant, and the bounds-checked variant shipped in the
  docker-compose appendix);
* the ASCII/binary dispatch of `ThreeJSManager.parseSTL`;
* the camera auto-framing of `ThreeJSManager.buildModel` / `loadSTL`;
* the `CADObject` composition operations (`union`, `subtract`,
  `intersect`) and the `cad.cone` primitive factory of the CAD engine;
* `ModelBuilder.build` (script sandbox and scene/current-model state);
* `AuthService` (`canGenerateModel` / `incrementModelCount`).

Modelling conventions:

* JavaScript strings are `List Char` (`JSString`); `jsTrim` and
  `jsStartsWith` model `String.prototype.trim` / `startsWith` on the
  ASCII repertoire the code and the claims use.
* Byte buffers (`ArrayBuffer`/`DataView`) are `List Nat`, one entry per
  byte.  `DataView.getFloat32(off, true)` moves a little-endian 32-bit
  pattern from the buffer into the output arrays without the parser
  inspecting its numeric value, so a "float" is represented by its
  32-bit little-endian bit pattern (a `Nat`); an out-of-range read,
  which in JS throws a `RangeError`, is `none`.
* Geometric quantities are `ℚ`; the rendering library's `Box3` math
  (`getCenter` = midpoint, `getSize` = max − min) is embedded directly,
  while `Box3.setFromObject` (vertex-level bounding-box computation
  inside the rendering library) is an abstract function carried by the
  `ThreeLib` record.
* Rendering-library meshes are the inductive `Mesh`: leaf meshes carry
  their geometry, material and shadow flags; `THREE.Group` nodes carry a
  child list.  `clone` is a deep copy, i.e. the identity on values.
* Code that throws is embedded with `Except String`.
-/

/-! ## Rational 3-vectors and bounding-box math -/

structure Vec3 where
  x : ℚ
  y : ℚ
  z : ℚ
deriving DecidableEq, Repr

/-- An axis-aligned bounding box, as a `THREE.Box3` value. -/
structure AABB where
  min : Vec3
  max : Vec3
deriving DecidableEq, Repr

/-- `THREE.Box3.getCenter`: the midpoint of the box. -/
def boxGetCenter (b : AABB) : Vec3 :=
  ⟨(b.min.x + b.max.x) / 2, (b.min.y + b.max.y) / 2, (b.min.z + b.max.z) / 2⟩

/-- `THREE.Box3.getSize`: componentwise `max − min`. -/
def boxGetSize (b : AABB) : Vec3 :=
  ⟨b.max.x - b.min.x, b.max.y - b.min.y, b.max.z - b.min.z⟩

/-- The camera state the viewer code mutates: `camera.position.set(...)`
followed by `camera.lookAt(target)`. -/
structure CameraPose where
  position : Vec3
  target : Vec3
deriving DecidableEq, Repr

/-! ## Meshes, materials and geometries -/

/-- The `THREE.MeshPhongMaterial` fields the CAD engine sets. -/
structure PhongMaterial where
  color : Nat
  transparent : Bool
  opacity : ℚ
  shininess : ℚ
deriving DecidableEq, Repr

/-- The geometry constructors the embedded code builds:
`BoxGeometry`, `CylinderGeometry`, `SphereGeometry`, `ConeGeometry`,
`TorusGeometry`, and a `BufferGeometry` holding the position/normal
words reconstructed by the STL parser. -/
inductive Geometry where
  | box (w h d : ℚ)
  | cylinder (radiusTop radiusBottom height : ℚ) (seg : Nat)
  | sphere (r : ℚ) (wseg hseg : Nat)
  | cone (radius height : ℚ) (seg : Nat)
  | torus (radius tube : ℚ) (rseg tseg : Nat)
  | buffer (positions normals : List Nat)
deriving DecidableEq, Repr

/-- A rendering-library object: a leaf `THREE.Mesh` or a `THREE.Group`. -/
inductive Mesh where
  | mesh (geom : Geometry) (mat : PhongMaterial) (castShadow receiveShadow : Bool)
  | group (children : List Mesh)

mutual

def Mesh.decEq : (a b : Mesh) → Decidable (a = b)
  | .mesh g1 m1 c1 r1, .mesh g2 m2 c2 r2 =>
    if h1 : g1 = g2 then
      if h2 : m1 = m2 then
        if h3 : c1 = c2 then
          if h4 : r1 = r2 then isTrue (by rw [h1, h2, h3, h4])
          else isFalse (by intro h; cases h; exact h4 rfl)
        else isFalse (by intro h; cases h; exact h3 rfl)
      else isFalse (by intro h; cases h; exact h2 rfl)
    else isFalse (by intro h; cases h; exact h1 rfl)
  | .mesh _ _ _ _, .group _ => isFalse (by intro h; cases h)
  | .group _, .mesh _ _ _ _ => isFalse (by intro h; cases h)
  | .group cs1, .group cs2 =>
    match Mesh.decEqList cs1 cs2 with
    | isTrue h => isTrue (by rw [h])
    | isFalse h => isFalse (by intro hh; cases hh; exact h rfl)

def Mesh.decEqList : (as bs : List Mesh) → Decidable (as = bs)
  | [], [] => isTrue rfl
  | [], _ :: _ => isFalse (by intro h; cases h)
  | _ :: _, [] => isFalse (by intro h; cases h)
  | a :: as, b :: bs =>
    match Mesh.decEq a b, Mesh.decEqList as bs with
    | isTrue h1, isTrue h2 => isTrue (by rw [h1, h2])
    | isFalse h1, _ => isFalse (by intro hh; injection hh with e1 e2; exact h1 e1)
    | _, isFalse h2 => isFalse (by intro hh; injection hh with e1 e2; exact h2 e2)

end

instance : DecidableEq Mesh := Mesh.decEq

/-- `Object3D.clone()`: a deep copy, value-identical to the original. -/
def Mesh.clone (m : Mesh) : Mesh := m

mutual

/-- The `resultMesh.traverse(child => { if (child.isMesh) { child.castShadow =
true; child.receiveShadow = true; } })` post-processing the CSG operations
apply to the library's result. -/
def setShadows : Mesh → Mesh
  | .mesh g m _ _ => .mesh g m true true
  | .group cs => .group (setShadowsList cs)

def setShadowsList : List Mesh → List Mesh
  | [] => []
  | c :: cs => setShadows c :: setShadowsList cs

end

mutual

/-- The sequence of leaf geometries of an object tree, in traversal order. -/
def Mesh.leaves : Mesh → List Geometry
  | .mesh g _ _ _ => [g]
  | .group cs => Mesh.leavesList cs

def Mesh.leavesList : List Mesh → List Geometry
  | [] => []
  | c :: cs => Mesh.leaves c ++ Mesh.leavesList cs

end

/-! ## The CAD engine (`cad-engine.js`, src/unnamed/part_004) -/

/-- A CAD object wraps a rendering-library mesh. -/
structure CADObject where
  mesh : Mesh
deriving DecidableEq

/-- `CADObject.build()` returns the wrapped mesh. -/
def CADObject.build (a : CADObject) : Mesh := a.mesh

/-- `CADObject.union`: visual grouping only — a new `THREE.Group`
containing clones of the two operand meshes. -/
def CADObject.union (a other : CADObject) : CADObject :=
  ⟨Mesh.group [a.mesh.clone, other.mesh.clone]⟩

/-- The external constructive-solid-geometry library (`three-csg.js`):
an abstract record of its two boolean-geometry operations.  `none` in
the operations below models `typeof CSG === 'undefined'`. -/
structure CSGLib where
  subtract : Mesh → Mesh → Mesh
  intersect : Mesh → Mesh → Mesh

/-- `CADObject.subtract`: throws when the CSG library is not loaded,
otherwise forwards to `CSG.subtract` on clones of the operand meshes and
wraps the result (with shadow flags enabled on its leaf meshes). -/
def CADObject.subtract (csg : Option CSGLib) (a other : CADObject) :
    Except String CADObject :=
  match csg with
  | none => .error "CSG library not loaded. Ensure three-csg.js is included."
  | some lib => .ok ⟨setShadows (lib.subtract a.mesh.clone other.mesh.clone)⟩

/-- `CADObject.intersect`: same shape as `subtract`, forwarding to
`CSG.intersect`. -/
def CADObject.intersect (csg : Option CSGLib) (a other : CADObject) :
    Except String CADObject :=
  match csg with
  | none => .error "CSG library not loaded. Ensure three-csg.js is included."
  | some lib => .ok ⟨setShadows (lib.intersect a.mesh.clone other.mesh.clone)⟩

/-- The `src/unnamed/part_001` variant of `CADObject.subtract` ("CSG
operations now handled by backend"): it never consults the CSG library
and never throws — it logs a warning and returns a visual group
containing a clone of only `this.mesh`, ignoring `other`.  The function
is total (no `Except`): the JS method always returns normally. -/
def CADObject.subtractNoCSG (a other : CADObject) : CADObject :=
  ⟨Mesh.group [a.mesh.clone]⟩

/-- The `src/unnamed/part_001` variant of `CADObject.intersect`: same
shape as `subtractNoCSG` — warn and return a group of a clone of
`this.mesh` only. -/
def CADObject.intersectNoCSG (a other : CADObject) : CADObject :=
  ⟨Mesh.group [a.mesh.clone]⟩

/-- The default material the `cad` factory attaches to its primitives. -/
def cadPhongMaterial : PhongMaterial :=
  { color := 0x667eea, transparent := false, opacity := 1, shininess := 100 }

/-- The options object accepted by `cad.cone`; `none` is an absent
property, so `opts.a ?? opts.b ?? d` is `a.getD (b.getD d)`. -/
structure ConeOpts where
  radiusTop : Option ℚ := none
  radiusBottom : Option ℚ := none
  radius : Option ℚ := none
  h : Option ℚ := none
  height : Option ℚ := none
  segments : Option Nat := none
deriving DecidableEq

/-- An invocation of `cad.cone(optionsOrRadiusTop, radiusBottom, height,
segments = 32)`: either an options object (together with the value of
the trailing `segments` parameter, `32` when the call site omits it) or
four positional arguments. -/
inductive ConeArgs where
  | opts (o : ConeOpts) (segments : Nat)
  | pos (radiusTop radiusBottom height : ℚ) (segments : Nat)
deriving DecidableEq

/-- The resolved `rBottom` of a `cad.cone` call. -/
def coneRadiusBottom : ConeArgs → ℚ
  | .opts o _ => o.radiusBottom.getD (o.radius.getD 1)
  | .pos _ rBottom _ _ => rBottom

/-- The resolved `h` of a `cad.cone` call. -/
def coneHeight : ConeArgs → ℚ
  | .opts o _ => o.h.getD (o.height.getD 1)
  | .pos _ _ height _ => height

/-- The resolved `seg` of a `cad.cone` call. -/
def coneSegments : ConeArgs → Nat
  | .opts o segments => o.segments.getD segments
  | .pos _ _ _ segments => segments

/-- The resolved `rTop` of a `cad.cone` call (parsed by the code but never
passed to `ConeGeometry`). -/
def coneRadiusTop : ConeArgs → ℚ
  | .opts o _ => o.radiusTop.getD 0
  | .pos radiusTop _ _ _ => radiusTop

/-- `cad.cone`: resolves its arguments and builds
`new THREE.ConeGeometry(rBottom, h, seg)` with the default Phong
material and shadow flags; the resolved `rTop` is unused. -/
def cad.cone (args : ConeArgs) : CADObject :=
  ⟨Mesh.mesh (Geometry.cone (coneRadiusBottom args) (coneHeight args) (coneSegments args))
    cadPhongMaterial true true⟩

/-! ## JavaScript strings and byte buffers -/

/-- A JavaScript string, as its character sequence. -/
abbrev JSString := List Char

/-- `String.prototype.trim()` (on the whitespace repertoire the inputs use). -/
def jsTrim (s : JSString) : JSString :=
  ((s.dropWhile Char.isWhitespace).reverse.dropWhile Char.isWhitespace).reverse

/-- `String.prototype.startsWith(p)`. -/
def jsStartsWith : JSString → JSString → Bool
  | _, [] => true
  | [], _ :: _ => false
  | c :: cs, p :: ps => c = p && jsStartsWith cs ps

/-- A byte buffer (`ArrayBuffer` contents), one `Nat` per byte. -/
abbrev Bytes := List Nat

/-- The little-endian 32-bit word starting at byte offset `off` (the bit
pattern `DataView.getUint32(off, true)` / `getFloat32(off, true)`
assembles; no bounds information). -/
def getWord32 (data : Bytes) (off : Nat) : Nat :=
  data.getD off 0 + 256 * data.getD (off + 1) 0 +
    65536 * data.getD (off + 2) 0 + 16777216 * data.getD (off + 3) 0

/-- A bounds-checked `DataView` 32-bit read: `none` models the
`RangeError` a read past the end of the view throws. -/
def readWord32 (data : Bytes) (off : Nat) : Option Nat :=
  if off + 4 ≤ data.length then some (getWord32 data off) else none

/-- `TextEncoder().encode` on the ASCII repertoire: one byte per char. -/
def strToBytes (s : JSString) : Bytes := s.map Char.toNat

/-- `TextDecoder().decode` on the ASCII repertoire: one char per byte. -/
def decodeBytesAsText (b : Bytes) : JSString := b.map Char.ofNat

/-! ## The binary STL parser (`ThreeJSManager.parseBinarySTL`) -/

/-- The 12 floats of one 50-byte triangle record (`parseBinarySTL` loop
body): 3 normal words at `offset`, then 3 vertices of 3 words each at
`offset + 12 + j*12`; the 2 attribute bytes at `offset + 48` are never
read.  `none` as soon as any read crosses the end of the buffer. -/
def readTriangle (data : Bytes) (i : Nat) : Option (List Nat × List Nat) :=
  let off := 84 + i * 50
  match readWord32 data off, readWord32 data (off + 4), readWord32 data (off + 8) with
  | some nx, some ny, some nz =>
    match readVertex data (off + 12), readVertex data (off + 24), readVertex data (off + 36) with
    | some v1, some v2, some v3 =>
      some (v1 ++ v2 ++ v3, [nx, ny, nz, nx, ny, nz, nx, ny, nz])
    | _, _, _ => none
  | _, _, _ => none
where
  /-- The 3 words of one vertex. -/
  readVertex (data : Bytes) (voff : Nat) : Option (List Nat) :=
    match readWord32 data voff, readWord32 data (voff + 4), readWord32 data (voff + 8) with
    | some x, some y, some z => some [x, y, z]
    | _, _, _ => none

/-- The triangle loop of `parseBinarySTL` over indices `i, …, i+n-1`,
concatenating the per-triangle vertex and normal words; a `RangeError`
(`none`) in any record aborts the whole loop. -/
def readTris (data : Bytes) (i n : Nat) : Option (List Nat × List Nat) :=
  match n with
  | 0 => some ([], [])
  | Nat.succ k =>
    match readTriangle data i, readTris data (i + 1) k with
    | some (v, nrm), some (vs, ns) => some (v ++ vs, nrm ++ ns)
    | _, _ => none

/-- `ThreeJSManager.parseBinarySTL` (src/unnamed/part_007): rejects
buffers under 84 bytes, reads the triangle count as a little-endian
uint32 at offset 80, then reads `triangleCount` 50-byte records with no
per-record bounds check — an out-of-range float read escapes as a
`RangeError` — and finally rejects an empty vertex list. -/
def parseBinarySTL (data : Bytes) : Except String (List Nat × List Nat) :=
  if data.length < 84 then .error "Binary STL file too small"
  else
    let triangleCount := getWord32 data 80
    match readTris data 0 triangleCount with
    | none => .error "RangeError: Offset is outside the bounds of the DataView"
    | some (vertices, normals) =>
      if vertices = [] then .error "No valid triangles found in binary STL data"
      else .ok (vertices, normals)

/-- One triangle record of the bounds-checked variant: the in-loop
`try`/`catch` of the docker-compose copy.  Returns the words pushed
before any failing bounds check together with a flag saying whether the
whole record was read (`false` models the caught error that breaks the
loop). -/
def readTriangleChecked (data : Bytes) (off : Nat) : List Nat × List Nat × Bool :=
  if data.length < off + 12 then ([], [], false)
  else
    let nx := getWord32 data off
    let ny := getWord32 data (off + 4)
    let nz := getWord32 data (off + 8)
    if data.length < off + 24 then ([], [], false)
    else
      let v1 := [getWord32 data (off + 12), getWord32 data (off + 16), getWord32 data (off + 20)]
      if data.length < off + 36 then (v1, [nx, ny, nz], false)
      else
        let v2 := [getWord32 data (off + 24), getWord32 data (off + 28), getWord32 data (off + 32)]
        if data.length < off + 48 then (v1 ++ v2, [nx, ny, nz, nx, ny, nz], false)
        else
          let v3 := [getWord32 data (off + 36), getWord32 data (off + 40), getWord32 data (off + 44)]
          (v1 ++ v2 ++ v3, [nx, ny, nz, nx, ny, nz, nx, ny, nz], true)

/-- The triangle loop of the bounds-checked variant: stops (keeping what
was accumulated) when fewer than 50 bytes remain for the next record or
when a record's inner bounds check fails. -/
def readTrisChecked (data : Bytes) (i n : Nat) : List Nat × List Nat :=
  match n with
  | 0 => ([], [])
  | Nat.succ k =>
    let off := 84 + i * 50
    if data.length < off + 50 then ([], [])
    else
      match readTriangleChecked data off with
      | (v, nrm, true) =>
        let rest := readTrisChecked data (i + 1) k
        (v ++ rest.1, nrm ++ rest.2)
      | (v, nrm, false) => (v, nrm)

/-- `ThreeJSManager.parseBinarySTL`, bounds-checked variant
(docker-compose appendix): additionally validates the expected size
`84 + triangleCount*50` up front — throwing on any shortfall — and caps
the triangle count at 10 million before running the (then unreachable)
recovering loop. -/
def parseBinarySTLChecked (data : Bytes) : Except String (List Nat × List Nat) :=
  if data.length < 84 then .error "Binary STL file too small"
  else
    let triangleCount := getWord32 data 80
    if data.length < 84 + triangleCount * 50 then
      .error ("Binary STL file truncated or invalid triangle count. Expected " ++
        toString (84 + triangleCount * 50) ++ " bytes, got " ++ toString data.length ++ " bytes")
    else if 10000000 < triangleCount then
      .error ("Unrealistic triangle count: " ++ toString triangleCount ++ ". File may be corrupted.")
    else
      let result := readTrisChecked data 0 triangleCount
      if result.1 = [] then .error "No valid triangles found in binary STL data"
      else .ok result

/-- Specification-side description of the vertex words of triangle `i`:
the nine little-endian 32-bit float patterns of the three vertices of
the 50-byte record at `84 + 50*i`, skipping its 12-byte normal. -/
def triVertexWords (data : Bytes) (i : Nat) : List Nat :=
  [getWord32 data (84 + 50 * i + 12), getWord32 data (84 + 50 * i + 16),
   getWord32 data (84 + 50 * i + 20),
   getWord32 data (84 + 50 * i + 24), getWord32 data (84 + 50 * i + 28),
   getWord32 data (84 + 50 * i + 32),
   getWord32 data (84 + 50 * i + 36), getWord32 data (84 + 50 * i + 40),
   getWord32 data (84 + 50 * i + 44)]

/-- Specification-side description of the normal words of triangle `i`:
the facet normal (three words at the start of the record), paired once
with each of the three reconstructed vertices. -/
def triNormalWords (data : Bytes) (i : Nat) : List Nat :=
  let n := [getWord32 data (84 + 50 * i), getWord32 data (84 + 50 * i + 4),
    getWord32 data (84 + 50 * i + 8)]
  n ++ n ++ n

/-! ## STL input classification (`ThreeJSManager.parseSTL`) -/

/-- An STL input: a JS string or an `ArrayBuffer`. -/
inductive STLData where
  | str (s : JSString)
  | buf (b : Bytes)

inductive ParserKind where
  | ascii
  | binary
deriving DecidableEq, Repr

/-- The dispatch of `ThreeJSManager.parseSTL` (src/unnamed/part_007):
`typeof stlData === 'string' && stlData.trim().startsWith('solid')`
selects the ASCII parser; everything else goes to the binary parser. -/
def parseSTLDispatch : STLData → ParserKind
  | .str s => if jsStartsWith (jsTrim s) "solid".data then .ascii else .binary
  | .buf _ => .binary

/-- The classification the specification describes: trimmed data begins
with `"solid"`, for a string directly and for an `ArrayBuffer` by
decoding its (up to 80) header bytes as text. -/
def spec_isAsciiSTL : STLData → Bool
  | .str s => jsStartsWith (jsTrim s) "solid".data
  | .buf b => jsStartsWith (jsTrim (decodeBytesAsText (b.take 80))) "solid".data

/-- `ThreeJSManager.parseSTL`: dispatches on `parseSTLDispatch`.  The
line-based ASCII parser's numeric field parsing (`parseFloat`) is
abstracted as the `asciiP` argument; string input on the binary path is
encoded with `TextEncoder` first. -/
def ThreeJSManager.parseSTL (asciiP : JSString → Except String (List Nat × List Nat))
    (d : STLData) : Except String (List Nat × List Nat) :=
  match d with
  | .str s =>
    if jsStartsWith (jsTrim s) "solid".data then asciiP s
    else parseBinarySTL (strToBytes s)
  | .buf b => parseBinarySTL b

/-! ## Script sandbox and scene state (`ModelBuilder`, `ThreeJSManager`) -/

/-- The `cad` primitive factory binding handed to user scripts
(restricted to the constructor the claims examine). -/
structure CadFactory where
  cone : ConeArgs → CADObject

/-- The rendering-library binding (`THREE`): the operations of it the
embedded code consumes.  `box3setFromObject` is
`new THREE.Box3().setFromObject(obj)`. -/
structure ThreeLib where
  box3setFromObject : Mesh → AABB

/-- The math-library binding (`Math`): the operation the embedded code
consumes. -/
structure MathLib where
  maxFn : ℚ → ℚ → ℚ

/-- The result of running a user script inside the wrapper that
`ModelBuilder.build` compiles with `new Function('cad','THREE','Math', …)`:
the script throws, finishes without defining `model`, or defines `model`
— in which case the wrapper returns `model.build()` (`none` models a
`build()` that returns null). -/
inductive EvalOutcome where
  | throws (msg : String)
  | noModel
  | defines (built : Option Mesh)

/-- A compiled user script: a function of exactly the three injected
bindings (the primitive factory, the rendering library and the math
library), as produced by `new Function('cad', 'THREE', 'Math', …)`. -/
def Script : Type := CadFactory → ThreeLib → MathLib → EvalOutcome

/-- The global `cad` object passed to scripts. -/
def theCadFactory : CadFactory := ⟨cad.cone⟩

/-- The global `Math` object passed to scripts. -/
def theMathLib : MathLib := ⟨max⟩

/-- The builder-managed scene state: the models the builder has added to
the scene, and `ModelBuilder.currentModel` (the lights, ground plane and
helpers the scene also holds are not managed by the builder and are not
tracked). -/
structure ViewerState where
  sceneChildren : List Mesh
  currentModel : Option Mesh
deriving DecidableEq

/-- The "clear previous model" prologue of `ModelBuilder.build`:
`scene.remove(this.currentModel)` (removal by object identity, i.e. of
the one occurrence of the value) and `this.currentModel = null`. -/
def clearCurrentModel (st : ViewerState) : ViewerState :=
  match st.currentModel with
  | some m => ⟨st.sceneChildren.erase m, none⟩
  | none => st

/-- A successful build: the built mesh plus the bounding-box center and
size `ModelBuilder.build` computes from it. -/
structure BuildResult where
  model : Mesh
  center : Vec3
  size : Vec3
deriving DecidableEq

/-- `ModelBuilder.build(code, scene)` (src/unnamed/part_004): clears the
previous current model, rejects blank code, evaluates the script with
the three injected bindings, rejects a missing `model` variable or a
null `model.build()`, and otherwise adds the mesh to the scene, records
it as current and returns it with its bounding-box center and size.
`compile` is the JS evaluator (`new Function`). -/
def ModelBuilder.build (compile : JSString → Script) (three : ThreeLib)
    (code : JSString) (st : ViewerState) : ViewerState × Except String BuildResult :=
  let st1 := clearCurrentModel st
  if jsTrim code = [] then (st1, .error "No code to build")
  else
    match compile code theCadFactory three theMathLib with
    | .throws msg => (st1, .error msg)
    | .noModel =>
      (st1, .error "No model variable found. Make sure your code defines a \"model\" variable.")
    | .defines none => (st1, .error "No model returned from code execution")
    | .defines (some m) =>
      let box := three.box3setFromObject m
      (⟨st1.sceneChildren ++ [m], some m⟩, .ok ⟨m, boxGetCenter box, boxGetSize box⟩)

/-- The camera framing block of `ThreeJSManager.buildModel` (also used
verbatim by `resetView` and `loadSTL`): `maxSize` is the largest
bounding-box extent, the distance is `maxSize * 1.5 + 2`, the camera
moves to `(d*0.7, d*0.5, d*0.7)` and looks at the box center. -/
def frameCamera (center size : Vec3) : CameraPose :=
  let maxSize := max size.x (max size.y size.z)
  let cameraDistance := maxSize * 1.5 + 2
  { position := ⟨cameraDistance * 0.7, cameraDistance * 0.5, cameraDistance * 0.7⟩,
    target := center }

/-- The framing the specification describes: distance
`maxSize * 1.5 + 2` from the largest extent, camera at
`(0.7·d, 0.5·d, 0.7·d)`, pointed at the bounding-box center. -/
def spec_frameCamera (center size : Vec3) : CameraPose :=
  let m := max size.x (max size.y size.z)
  let d := m * 1.5 + 2
  { position := ⟨0.7 * d, 0.5 * d, 0.7 * d⟩, target := center }

/-- `ThreeJSManager.buildModel`: runs `ModelBuilder.build` and, on
success, frames the camera from the result's bounding-box size and
center. -/
def ThreeJSManager.buildModel (compile : JSString → Script) (three : ThreeLib)
    (code : JSString) (st : ViewerState) :
    ViewerState × Except String (BuildResult × CameraPose) :=
  match ModelBuilder.build compile three code st with
  | (st1, .error e) => (st1, .error e)
  | (st1, .ok r) => (st1, .ok (r, frameCamera r.center r.size))

/-- The material `loadSTL` gives the parsed mesh. -/
def stlMaterial : PhongMaterial :=
  { color := 0x667eea, transparent := false, opacity := 1, shininess := 100 }

/-- `ThreeJSManager.loadSTL` (src/unnamed/part_007): parses the STL data
(a failure propagates with the state untouched), then removes the
previous current model from the scene, adds the new mesh and records it
as current.  (The camera framing it also performs is `frameCamera` on
the new mesh's box.) -/
def ThreeJSManager.loadSTL (asciiP : JSString → Except String (List Nat × List Nat))
    (st : ViewerState) (d : STLData) : ViewerState × Except String Mesh :=
  match ThreeJSManager.parseSTL asciiP d with
  | .error e => (st, .error e)
  | .ok (vertices, normals) =>
    let mesh := Mesh.mesh (Geometry.buffer vertices normals) stlMaterial true true
    let cleared :=
      match st.currentModel with
      | some prev => st.sceneChildren.erase prev
      | none => st.sceneChildren
    (⟨cleared ++ [mesh], some mesh⟩, .ok mesh)

/-- The scene invariant: the builder-managed scene children are exactly
the current model (at most one built model in the scene). -/
def SceneInv (st : ViewerState) : Prop :=
  st.sceneChildren = st.currentModel.toList

/-! ## The usage/session service (`AuthService`, src/unnamed/part_005) -/

/-- The `AuthService` fields the usage logic reads and writes. -/
structure AuthState where
  isSignedIn : Bool
  modelCount : Nat
  maxModels : Nat
deriving DecidableEq, Repr

/-- The constructor state: signed out, zero models, bound 10. -/
def initAuthState : AuthState := ⟨false, 0, 10⟩

/-- `AuthService.canGenerateModel()`:
`this.isSignedIn && this.modelCount < this.maxModels`. -/
def AuthService.canGenerateModel (s : AuthState) : Bool :=
  s.isSignedIn && decide (s.modelCount < s.maxModels)

/-- The backend's answer to `/api/user/increment-count`: an OK response
carrying `model_count`, or a non-OK / failed fetch. -/
inductive BackendResult where
  | ok (model_count : Nat)
  | fail

/-- The outcome of `AuthService.incrementModelCount()`: whether the
backend was contacted (the `fetch` was reached) and the thrown error or
updated state. -/
structure IncOutcome where
  contactedBackend : Bool
  result : Except String AuthState

/-- `AuthService.incrementModelCount()`: throws before any backend call
when not signed in or when the counter has reached the bound; otherwise
posts to the backend and, on an OK response, takes the new counter value
from the response's `model_count`. -/
def AuthService.incrementModelCount (s : AuthState) (resp : BackendResult) : IncOutcome :=
  if !s.isSignedIn then
    ⟨false, .error "User must be signed in to generate models"⟩
  else if s.maxModels ≤ s.modelCount then
    ⟨false, .error ("You have reached the maximum limit of " ++ toString s.maxModels ++
      " models. Please upgrade your account or contact support.")⟩
  else
    match resp with
    | .ok n => ⟨true, .ok { s with modelCount := n }⟩
    | .fail => ⟨true, .error "Failed to update model count"⟩

/-- The state transitions of `AuthService`: a session found on startup,
a successful sign-in, sign-out, a user-data reload, and a successful
`incrementModelCount`.  None of them writes `maxModels`. -/
inductive AuthStep : AuthState → AuthState → Prop where
  | sessionFound (s : AuthState) (n : Nat) :
      AuthStep s { s with isSignedIn := true, modelCount := n }
  | signInOk (s : AuthState) (n : Nat) :
      AuthStep s { s with isSignedIn := true, modelCount := n }
  | signOut (s : AuthState) :
      AuthStep s { s with isSignedIn := false, modelCount := 0 }
  | loadUserData (s : AuthState) (n : Nat) (h : s.isSignedIn = true) :
      AuthStep s { s with modelCount := n }
  | increment (s s' : AuthState) (resp : BackendResult)
      (h : (AuthService.incrementModelCount s resp).result = .ok s') :
      AuthStep s s'

/-- The states of the usage/session service: everything reachable from
the constructor state by the service's transitions. -/
inductive ReachableAuth : AuthState → Prop where
  | init : ReachableAuth initAuthState
  | step {s s' : AuthState} : ReachableAuth s → AuthStep s s' → ReachableAuth s'

/-! ## Concrete fixtures used by witnesses and counterexamples -/

/-- A complete one-triangle binary STL buffer: 80-byte header, count 1,
one full 50-byte record. -/
def oneTriBuffer : Bytes :=
  List.replicate 80 0 ++ [1, 0, 0, 0] ++ List.replicate 50 3

/-- A truncated binary STL buffer: count 2 but only one 50-byte record
present (134 bytes in all, expected 184). -/
def truncatedBuffer : Bytes :=
  List.replicate 80 0 ++ [2, 0, 0, 0] ++ List.replicate 50 0

/-- An 84-byte `ArrayBuffer` whose header text is `"solid thing"`
followed by spaces. -/
def solidHeaderBuffer : Bytes :=
  strToBytes "solid thing".data ++ List.replicate 73 32

/-- A concrete leaf mesh for witnesses. -/
def w8mesh : Mesh := .mesh (.box 1 1 1) cadPhongMaterial true true

/-- A compiler whose scripts define `model` with `build()` returning
`w8mesh`. -/
def w8compile : JSString → Script := fun _ => fun _ _ _ => .defines (some w8mesh)

/-- A compiler whose scripts throw. -/
def wThrowCompile : JSString → Script := fun _ => fun _ _ _ => .throws "boom"

/-- A rendering library whose `Box3.setFromObject` always yields the
unit box. -/
def w8three : ThreeLib := ⟨fun _ => ⟨⟨0, 0, 0⟩, ⟨1, 1, 1⟩⟩⟩

/-- The empty builder-managed scene. -/
def emptyViewer : ViewerState := ⟨[], none⟩

/-- The build result `ModelBuilder.build` produces for `w8compile` /
`w8three` on the empty scene. -/
def w4result : BuildResult :=
  ⟨w8mesh, boxGetCenter (w8three.box3setFromObject w8mesh),
    boxGetSize (w8three.box3setFromObject w8mesh)⟩

/-- A signed-in usage state with 3 generated models. -/
def w7state : AuthState := ⟨true, 3, 10⟩

/-- An ASCII parser stand-in for witnesses that exercise the binary path. -/
def wAsciiP : JSString → Except String (List Nat × List Nat) :=
  fun _ => .error "ascii parser unused"

/-- The mesh `loadSTL` constructs from `oneTriBuffer` (every payload byte
is `3`, so all twelve floats share the bit pattern `50529027`). -/
def w10mesh : Mesh :=
  .mesh (.buffer (List.replicate 9 50529027) (List.replicate 9 50529027)) stlMaterial true true

/-- A concrete loaded CSG library returning marker spheres, for the C6
counterexample. -/
def wCSGLib : CSGLib :=
  ⟨fun _ _ => Mesh.mesh (Geometry.sphere 1 8 8) cadPhongMaterial false false,
   fun _ _ => Mesh.mesh (Geometry.sphere 2 8 8) cadPhongMaterial false false⟩

/-- A concrete first CSG operand. -/
def wCadA : CADObject := ⟨Mesh.mesh (Geometry.box 1 1 1) cadPhongMaterial true true⟩

/-- A concrete second CSG operand. -/
def wCadB : CADObject := ⟨Mesh.mesh (Geometry.box 2 2 2) cadPhongMaterial true true⟩

/-! ## Theorems -/

/-- Claim C4: for every built or loaded model, the auto-framing computes
`maxSize` as the largest bounding-box extent, sets the camera distance to
`maxSize * 1.5 + 2`, places the camera at `(0.7·d, 0.5·d, 0.7·d)` and
points it at the bounding-box center; and the pose `buildModel` attaches
to a successful build is exactly this framing of the result's box. -/
theorem camera_autoframing_formula (center size : Vec3) (compile : JSString → Script)
    (three : ThreeLib) (code : JSString) (st : ViewerState) (r : BuildResult)
    (pose : CameraPose) :
    frameCamera center size = spec_frameCamera center size ∧
    ((ThreeJSManager.buildModel compile three code st).2 = .ok (r, pose) →
      pose = spec_frameCamera r.center r.size) := by
  have key : ∀ c s : Vec3, frameCamera c s = spec_frameCamera c s := by
    intro c s
    simp only [frameCamera, spec_frameCamera, CameraPose.mk.injEq, Vec3.mk.injEq]
    refine ⟨⟨by ring, by ring, by ring⟩, trivial⟩
  refine ⟨key center size, ?_⟩
  intro h
  rcases hb : ModelBuilder.build compile three code st with ⟨st1, res⟩
  rcases res with e | r'
  · simp [ThreeJSManager.buildModel, hb] at h
  · simp [ThreeJSManager.buildModel, hb] at h
    rcases h with ⟨rfl, rfl⟩
    exact key _ _

/-- Witness for C4 at a concrete successful build. -/
theorem camera_autoframing_formula_witness :
    (ThreeJSManager.buildModel w8compile w8three "m".data emptyViewer).2 =
      .ok (w4result, frameCamera w4result.center w4result.size) ∧
    frameCamera w4result.center w4result.size = spec_frameCamera w4result.center w4result.size :=
  ⟨rfl,
    (camera_autoframing_formula w4result.center w4result.size w8compile w8three "m".data
      emptyViewer w4result (frameCamera w4result.center w4result.size)).2 rfl⟩

/-- Claim C5: `a.union(b)` is visual grouping only: it returns a new CAD
object whose mesh is a group whose children are (clones of, i.e. values
equal to) `a`'s and `b`'s meshes, both embedded unchanged — the leaf
geometries of the result are exactly those of the operands, with no
boolean geometry computed. -/
theorem union_is_visual_grouping (a b : CADObject) :
    CADObject.union a b = ⟨Mesh.group [a.mesh.clone, b.mesh.clone]⟩ ∧
    (CADObject.union a b).mesh = Mesh.group [a.mesh, b.mesh] ∧
    Mesh.leaves (CADObject.union a b).mesh = Mesh.leaves a.mesh ++ Mesh.leaves b.mesh := by
  refine ⟨rfl, rfl, ?_⟩
  show Mesh.leavesList [a.mesh.clone, b.mesh.clone] = _
  rw [Mesh.leavesList, Mesh.leavesList, Mesh.leavesList]
  simp [Mesh.clone]

/-- Claim C6 counterexample: in the `part_001` cad-engine variant the
claim fails at concrete operands — `subtract`/`intersect` return a
group containing a clone of only the first operand's mesh (no error is
ever thrown: the functions are total), which is not the wrapped result
of the concretely loaded library `wCSGLib`. -/
theorem csg_forwarding_cex :
    CADObject.subtractNoCSG wCadA wCadB = ⟨Mesh.group [wCadA.mesh]⟩ ∧
    CADObject.intersectNoCSG wCadA wCadB = ⟨Mesh.group [wCadA.mesh]⟩ ∧
    CADObject.subtractNoCSG wCadA wCadB ≠ ⟨setShadows (wCSGLib.subtract wCadA.mesh wCadB.mesh)⟩ ∧
    CADObject.intersectNoCSG wCadA wCadB ≠ ⟨setShadows (wCSGLib.intersect wCadA.mesh wCadB.mesh)⟩ :=
  ⟨rfl, rfl, by decide, by decide⟩

/-- Claim C6 amended: in the `part_004` cad-engine variant,
`a.subtract(b)` and `a.intersect(b)` throw when the CSG library is
absent and otherwise forward to the library's `subtract`/`intersect`
on the operand meshes, wrapping the library's result mesh (with shadow
flags enabled on its leaves); in the `part_001` variant, neither
operation consults the CSG library or fails — each returns a visual
group containing a clone of only the first operand's mesh, ignoring
the second operand. -/
theorem csg_ops_two_variants (a b : CADObject) :
    (CADObject.subtract none a b =
        .error "CSG library not loaded. Ensure three-csg.js is included." ∧
      CADObject.intersect none a b =
        .error "CSG library not loaded. Ensure three-csg.js is included.") ∧
    (∀ lib : CSGLib,
      CADObject.subtract (some lib) a b = .ok ⟨setShadows (lib.subtract a.mesh b.mesh)⟩ ∧
      CADObject.intersect (some lib) a b = .ok ⟨setShadows (lib.intersect a.mesh b.mesh)⟩) ∧
    (CADObject.subtractNoCSG a b = ⟨Mesh.group [a.mesh.clone]⟩ ∧
      CADObject.intersectNoCSG a b = ⟨Mesh.group [a.mesh.clone]⟩) := by
  exact ⟨⟨rfl, rfl⟩, fun lib => ⟨rfl, rfl⟩, rfl, rfl⟩

/-- Claim C9: the geometry `cad.cone` produces depends only on the
resolved bottom radius, height and segment count; the parsed
`radiusTop` never reaches the constructed geometry. -/
theorem cone_ignores_radiusTop (a a' : ConeArgs)
    (hb : coneRadiusBottom a = coneRadiusBottom a')
    (hh : coneHeight a = coneHeight a')
    (hs : coneSegments a = coneSegments a') :
    cad.cone a = cad.cone a' := by
  simp [cad.cone, hb, hh, hs]

/-- Witness for C9: a positional pair and an options pair, each
differing only in `radiusTop`, produce identical cones. -/
theorem cone_ignores_radiusTop_witness :
    cad.cone (.pos 5 1 2 8) = cad.cone (.pos 0 1 2 8) ∧
    cad.cone (.opts { radiusTop := some 9, radiusBottom := some 1 } 32) =
      cad.cone (.opts { radiusBottom := some 1 } 32) :=
  ⟨cone_ignores_radiusTop _ _ (by decide) (by decide) (by decide),
   cone_ignores_radiusTop _ _ (by decide) (by decide) (by decide)⟩

/-- Every state `AuthService` can reach keeps the constructor's bound of 10. -/
theorem reachableAuth_maxModels (s : AuthState) (h : ReachableAuth s) : s.maxModels = 10 := by
  induction h with
  | init => rfl
  | @step s1 s2 hr hstep ih =>
    cases hstep with
    | sessionFound n => simpa using ih
    | signInOk n => simpa using ih
    | signOut => simpa using ih
    | loadUserData n hsi => simpa using ih
    | increment s2x resp hok =>
      unfold AuthService.incrementModelCount at hok
      by_cases h1 : s1.isSignedIn
      · by_cases h2 : s1.maxModels ≤ s1.modelCount
        · simp [h1, h2] at hok
        · rcases resp with n | _
          · simp [h1, h2] at hok
            rw [← hok]
            simpa using ih
          · simp [h1, h2] at hok
      · simp [h1] at hok

/-- Claim C7: in every reachable state of the usage service, generation
is permitted iff the user is signed in and the counter is strictly below
10; `incrementModelCount` throws without contacting the backend when
signed out or at the bound, and on a successful backend response takes
the counter value from the response. -/
theorem usage_gating_invariant (s : AuthState) (h : ReachableAuth s) (resp : BackendResult) :
    (AuthService.canGenerateModel s = true ↔ s.isSignedIn = true ∧ s.modelCount < 10) ∧
    (s.isSignedIn = false ∨ 10 ≤ s.modelCount →
      (AuthService.incrementModelCount s resp).contactedBackend = false ∧
      ∃ e, (AuthService.incrementModelCount s resp).result = .error e) ∧
    (∀ n, s.isSignedIn = true → s.modelCount < 10 →
      AuthService.incrementModelCount s (.ok n) = ⟨true, .ok { s with modelCount := n }⟩) := by
  have hm := reachableAuth_maxModels s h
  refine ⟨?_, ?_, ?_⟩
  · simp [AuthService.canGenerateModel, hm]
  · intro hcase
    rcases hcase with hout | hfull
    · simp [AuthService.incrementModelCount, hout]
    · by_cases h1 : s.isSignedIn
      · have h2 : s.maxModels ≤ s.modelCount := by omega
        simp [AuthService.incrementModelCount, h1, h2]
      · simp [AuthService.incrementModelCount, h1]
  · intro n h1 h2
    have h3 : ¬ s.maxModels ≤ s.modelCount := by omega
    simp [AuthService.incrementModelCount, h1, h3]

/-- Witness for C7 at the reachable signed-in state with 3 models. -/
theorem usage_gating_invariant_witness :
    (AuthService.canGenerateModel w7state = true ↔
      w7state.isSignedIn = true ∧ w7state.modelCount < 10) ∧
    (w7state.isSignedIn = false ∨ 10 ≤ w7state.modelCount →
      (AuthService.incrementModelCount w7state (.ok 4)).contactedBackend = false ∧
      ∃ e, (AuthService.incrementModelCount w7state (.ok 4)).result = .error e) ∧
    (∀ n, w7state.isSignedIn = true → w7state.modelCount < 10 →
      AuthService.incrementModelCount w7state (.ok n) =
        ⟨true, .ok { w7state with modelCount := n }⟩) :=
  usage_gating_invariant w7state
    (ReachableAuth.step ReachableAuth.init (AuthStep.signInOk initAuthState 3)) (.ok 4)

/-- Claim C8: `ModelBuilder.build` evaluates the script with exactly the
three injected bindings (`cad`, `THREE`, `Math` — the domain of
`Script`), throws `"No code to build"` on blank code, throws the
"No model variable found" error when the script defines no `model`, and
on success returns `model.build()` with the bounding-box center and size
of the result. -/
theorem model_builder_contract (compile : JSString → Script) (three : ThreeLib)
    (code : JSString) (st : ViewerState) :
    (jsTrim code = [] →
      ModelBuilder.build compile three code st =
        (clearCurrentModel st, .error "No code to build")) ∧
    (jsTrim code ≠ [] → compile code theCadFactory three theMathLib = .noModel →
      ModelBuilder.build compile three code st =
        (clearCurrentModel st,
         .error "No model variable found. Make sure your code defines a \"model\" variable.")) ∧
    (∀ m, jsTrim code ≠ [] → compile code theCadFactory three theMathLib = .defines (some m) →
      ModelBuilder.build compile three code st =
        (⟨(clearCurrentModel st).sceneChildren ++ [m], some m⟩,
         .ok ⟨m, boxGetCenter (three.box3setFromObject m),
              boxGetSize (three.box3setFromObject m)⟩)) := by
  refine ⟨?_, ?_, ?_⟩
  · intro hblank
    simp [ModelBuilder.build, hblank]
  · intro hblank hev
    simp [ModelBuilder.build, hblank, hev]
  · intro m hblank hev
    simp [ModelBuilder.build, hblank, hev]

/-- Witness for C8: blank code fails, a model-less script fails with the
"No model variable found" error, and a successful script returns the
built mesh with its box data. -/
theorem model_builder_contract_witness :
    (ModelBuilder.build (fun _ => fun _ _ _ => .noModel) w8three "  ".data emptyViewer =
      (clearCurrentModel emptyViewer, .error "No code to build")) ∧
    (ModelBuilder.build (fun _ => fun _ _ _ => .noModel) w8three "x".data emptyViewer =
      (clearCurrentModel emptyViewer,
       .error "No model variable found. Make sure your code defines a \"model\" variable.")) ∧
    (ModelBuilder.build w8compile w8three "m".data emptyViewer =
      (⟨(clearCurrentModel emptyViewer).sceneChildren ++ [w8mesh], some w8mesh⟩,
       .ok ⟨w8mesh, boxGetCenter (w8three.box3setFromObject w8mesh),
            boxGetSize (w8three.box3setFromObject w8mesh)⟩)) :=
  ⟨(model_builder_contract (fun _ => fun _ _ _ => .noModel) w8three "  ".data emptyViewer).1
      (by decide),
   (model_builder_contract (fun _ => fun _ _ _ => .noModel) w8three "x".data emptyViewer).2.1
      (by decide) rfl,
   (model_builder_contract w8compile w8three "m".data emptyViewer).2.2 w8mesh (by decide) rfl⟩

/-- `clearCurrentModel` always nulls the current-model reference. -/
theorem clearCurrentModel_none (st : ViewerState) :
    (clearCurrentModel st).currentModel = none := by
  rcases st with ⟨sc, _ | m⟩ <;> rfl

/-- Under the scene invariant, clearing empties the builder-managed scene. -/
theorem clearCurrentModel_empty (st : ViewerState) (h : SceneInv st) :
    (clearCurrentModel st).sceneChildren = [] := by
  rcases st with ⟨sc, _ | m⟩
  · simpa [SceneInv] using h
  · have h' : sc = [m] := by simpa [SceneInv] using h
    simp [clearCurrentModel, h']

/-- Claim C10: a build first removes the previous current model and
nulls the reference, so on any build error the state is exactly the
cleared one (no model in the scene, reference `none`); both `build` and
`loadSTL` preserve the at-most-one-current-model invariant; and a
successful STL load removes the previous model before adding the new
mesh. -/
theorem single_current_model (compile : JSString → Script) (three : ThreeLib)
    (asciiP : JSString → Except String (List Nat × List Nat))
    (code : JSString) (st : ViewerState) (d : STLData) :
    (∀ e, (ModelBuilder.build compile three code st).2 = .error e →
      (ModelBuilder.build compile three code st).1 = clearCurrentModel st ∧
      (ModelBuilder.build compile three code st).1.currentModel = none) ∧
    (SceneInv st → SceneInv (ModelBuilder.build compile three code st).1) ∧
    (SceneInv st → SceneInv (ThreeJSManager.loadSTL asciiP st d).1) ∧
    (∀ m, (ThreeJSManager.loadSTL asciiP st d).2 = .ok m →
      (ThreeJSManager.loadSTL asciiP st d).1 =
        ⟨(clearCurrentModel st).sceneChildren ++ [m], some m⟩) := by
  have hload : ∀ (v n : List Nat), ThreeJSManager.parseSTL asciiP d = .ok (v, n) →
      ThreeJSManager.loadSTL asciiP st d =
        (⟨(clearCurrentModel st).sceneChildren ++
            [Mesh.mesh (Geometry.buffer v n) stlMaterial true true],
          some (Mesh.mesh (Geometry.buffer v n) stlMaterial true true)⟩,
         .ok (Mesh.mesh (Geometry.buffer v n) stlMaterial true true)) := by
    intro v n hp
    rcases st with ⟨sc, _ | prev⟩ <;>
      simp [ThreeJSManager.loadSTL, hp, clearCurrentModel]
  refine ⟨?_, ?_, ?_, ?_⟩
  · intro e herr
    by_cases hblank : jsTrim code = []
    · simp [ModelBuilder.build, hblank, clearCurrentModel_none]
    · rcases hev : compile code theCadFactory three theMathLib with msg | _ | bm
      · simp [ModelBuilder.build, hblank, hev, clearCurrentModel_none]
      · simp [ModelBuilder.build, hblank, hev, clearCurrentModel_none]
      · rcases bm with _ | m
        · simp [ModelBuilder.build, hblank, hev, clearCurrentModel_none]
        · simp [ModelBuilder.build, hblank, hev] at herr
  · intro hinv
    by_cases hblank : jsTrim code = []
    · simpa [ModelBuilder.build, hblank, SceneInv, clearCurrentModel_none] using
        clearCurrentModel_empty st hinv
    · rcases hev : compile code theCadFactory three theMathLib with msg | _ | bm
      · simpa [ModelBuilder.build, hblank, hev, SceneInv, clearCurrentModel_none] using
          clearCurrentModel_empty st hinv
      · simpa [ModelBuilder.build, hblank, hev, SceneInv, clearCurrentModel_none] using
          clearCurrentModel_empty st hinv
      · rcases bm with _ | m
        · simpa [ModelBuilder.build, hblank, hev, SceneInv, clearCurrentModel_none] using
            clearCurrentModel_empty st hinv
        · simp [ModelBuilder.build, hblank, hev, SceneInv,
            clearCurrentModel_empty st hinv]
  · intro hinv
    rcases hp : ThreeJSManager.parseSTL asciiP d with e | ⟨v, n⟩
    · simpa [ThreeJSManager.loadSTL, hp] using hinv
    · rw [hload v n hp]
      simp [SceneInv, clearCurrentModel_empty st hinv]
  · intro m hok
    rcases hp : ThreeJSManager.parseSTL asciiP d with e | ⟨v, n⟩
    · simp [ThreeJSManager.loadSTL, hp] at hok
    · rw [hload v n hp] at hok ⊢
      simp at hok
      rw [← hok]

/-- Witness for C10: a throwing build on a clean scene leaves the
cleared state, the invariant is preserved by a failing build and a
successful STL load, and the load appends exactly the parsed mesh. -/
theorem single_current_model_witness :
    ((ModelBuilder.build wThrowCompile w8three "x".data emptyViewer).1 =
        clearCurrentModel emptyViewer ∧
      (ModelBuilder.build wThrowCompile w8three "x".data emptyViewer).1.currentModel = none) ∧
    SceneInv (ModelBuilder.build wThrowCompile w8three "x".data emptyViewer).1 ∧
    SceneInv (ThreeJSManager.loadSTL wAsciiP emptyViewer (.buf oneTriBuffer)).1 ∧
    (ThreeJSManager.loadSTL wAsciiP emptyViewer (.buf oneTriBuffer)).1 =
      ⟨(clearCurrentModel emptyViewer).sceneChildren ++ [w10mesh], some w10mesh⟩ :=
  ⟨(single_current_model wThrowCompile w8three wAsciiP "x".data emptyViewer
      (.buf oneTriBuffer)).1 "boom" rfl,
   (single_current_model wThrowCompile w8three wAsciiP "x".data emptyViewer
      (.buf oneTriBuffer)).2.1 rfl,
   (single_current_model wThrowCompile w8three wAsciiP "x".data emptyViewer
      (.buf oneTriBuffer)).2.2.1 rfl,
   (single_current_model wThrowCompile w8three wAsciiP "x".data emptyViewer
      (.buf oneTriBuffer)).2.2.2 w10mesh rfl⟩

/-- A `DataView` read inside the buffer succeeds. -/
theorem readWord32_of_le (data : Bytes) (off : Nat) (h : off + 4 ≤ data.length) :
    readWord32 data off = some (getWord32 data off) := by
  simp [readWord32, h]

/-- A triangle record whose float reads all fit in the buffer yields
exactly the specification-side vertex and normal words. -/
theorem readTriangle_complete (data : Bytes) (i : Nat)
    (h : 84 + i * 50 + 48 ≤ data.length) :
    readTriangle data i = some (triVertexWords data i, triNormalWords data i) := by
  simp only [readTriangle, readTriangle.readVertex]
  rw [readWord32_of_le data (84 + i * 50) (by omega),
      readWord32_of_le data (84 + i * 50 + 4) (by omega),
      readWord32_of_le data (84 + i * 50 + 8) (by omega),
      readWord32_of_le data (84 + i * 50 + 12) (by omega),
      readWord32_of_le data (84 + i * 50 + 12 + 4) (by omega),
      readWord32_of_le data (84 + i * 50 + 12 + 8) (by omega),
      readWord32_of_le data (84 + i * 50 + 24) (by omega),
      readWord32_of_le data (84 + i * 50 + 24 + 4) (by omega),
      readWord32_of_le data (84 + i * 50 + 24 + 8) (by omega),
      readWord32_of_le data (84 + i * 50 + 36) (by omega),
      readWord32_of_le data (84 + i * 50 + 36 + 4) (by omega),
      readWord32_of_le data (84 + i * 50 + 36 + 8) (by omega)]
  simp only [triVertexWords, triNormalWords]
  ring_nf
  simp

/-- The triangle loop over a fully-present range of records produces the
concatenation of the specification-side per-record words. -/
theorem readTris_complete (data : Bytes) :
    ∀ (n i : Nat), 84 + (i + n) * 50 ≤ data.length →
      readTris data i n =
        some ((List.range n).flatMap (fun k => triVertexWords data (i + k)),
              (List.range n).flatMap (fun k => triNormalWords data (i + k))) := by
  intro n
  induction n with
  | zero => intro i h; simp [readTris]
  | succ k ih =>
    intro i h
    rw [readTris, readTriangle_complete data i (by omega), ih (i + 1) (by omega)]
    rw [List.range_succ_eq_map, List.flatMap_cons, List.flatMap_cons,
        List.flatMap_map, List.flatMap_map]
    have hv : (fun x => triVertexWords data (i + 1 + x)) =
        (fun k' => triVertexWords data (i + Nat.succ k')) := by
      funext x; congr 1; omega
    have hn : (fun x => triNormalWords data (i + 1 + x)) =
        (fun k' => triNormalWords data (i + Nat.succ k')) := by
      funext x; congr 1; omega
    rw [hv, hn]
    simp

/-- Claim C1: on a binary buffer long enough for its declared triangle
count, the parser reads the count as a little-endian uint32 at offset
80 and, for each `i < count`, the 50-byte record at `84 + 50*i` — a
12-byte facet normal then nine vertex floats, the 2 attribute bytes
unread — pairing each reconstructed vertex with its facet's normal in
the output position/normal buffers. -/
theorem parseBinarySTL_reads_fixed_layout (data : Bytes)
    (hlen : 84 + 50 * getWord32 data 80 ≤ data.length)
    (hpos : 0 < getWord32 data 80) :
    parseBinarySTL data =
      .ok ((List.range (getWord32 data 80)).flatMap (triVertexWords data),
           (List.range (getWord32 data 80)).flatMap (triNormalWords data)) := by
  have h84 : ¬ data.length < 84 := by omega
  have hrt := readTris_complete data (getWord32 data 80) 0 (by omega)
  simp only [Nat.zero_add] at hrt
  have hne : (List.range (getWord32 data 80)).flatMap (triVertexWords data) ≠ [] := by
    obtain ⟨m, hm⟩ : ∃ m, getWord32 data 80 = m + 1 := ⟨getWord32 data 80 - 1, by omega⟩
    rw [hm, List.range_succ_eq_map, List.flatMap_cons]
    simp [triVertexWords]
  simp only [parseBinarySTL, if_neg h84]
  rw [hrt]
  simp [hne]

/-- Witness for C1 at a complete one-triangle buffer. -/
theorem parseBinarySTL_reads_fixed_layout_witness :
    (84 + 50 * getWord32 oneTriBuffer 80 ≤ oneTriBuffer.length ∧
      0 < getWord32 oneTriBuffer 80) ∧
    parseBinarySTL oneTriBuffer =
      .ok ((List.range (getWord32 oneTriBuffer 80)).flatMap (triVertexWords oneTriBuffer),
           (List.range (getWord32 oneTriBuffer 80)).flatMap (triNormalWords oneTriBuffer)) :=
  ⟨⟨by decide, by decide⟩,
    parseBinarySTL_reads_fixed_layout oneTriBuffer (by decide) (by decide)⟩

/-- A triangle record whose float reads cross the end of the buffer
aborts with a `RangeError` (`none`). -/
theorem readTriangle_oob (data : Bytes) (i : Nat)
    (h : data.length < 84 + i * 50 + 48) :
    readTriangle data i = none := by
  have hv : readTriangle.readVertex data (84 + i * 50 + 36) = none := by
    have h3 : readWord32 data (84 + i * 50 + 36 + 8) = none := by
      have hno : ¬ (84 + i * 50 + 36 + 8 + 4 ≤ data.length) := by omega
      simp [readWord32, hno]
    simp only [readTriangle.readVertex, h3]
    rcases readWord32 data (84 + i * 50 + 36) with _ | x <;>
      rcases readWord32 data (84 + i * 50 + 36 + 4) with _ | y <;> rfl
  simp only [readTriangle, hv]
  rcases readWord32 data (84 + i * 50) with _ | a <;>
    rcases readWord32 data (84 + i * 50 + 4) with _ | b <;>
      rcases readWord32 data (84 + i * 50 + 8) with _ | c <;>
        rcases readTriangle.readVertex data (84 + i * 50 + 12) with _ | v1 <;>
          rcases readTriangle.readVertex data (84 + i * 50 + 24) with _ | v2 <;> rfl

/-- A `RangeError` in any record of the loop aborts the whole loop. -/
theorem readTris_none (data : Bytes) :
    ∀ (n i j : Nat), i ≤ j → j < i + n → readTriangle data j = none →
      readTris data i n = none := by
  intro n
  induction n with
  | zero => intro i j h1 h2 h3; omega
  | succ k ih =>
    intro i j h1 h2 h3
    rw [readTris]
    by_cases hij : j = i
    · subst hij
      rw [h3]
    · have hrec := ih (i + 1) j (by omega) (by omega) h3
      rw [hrec]
      rcases readTriangle data i with _ | ⟨v, nrm⟩ <;> rfl

/-- Claim C2 counterexample: the 134-byte buffer declaring 2 triangles
but holding only one record is within the claim's scope
(`84 ≤ length < 84 + 50·count`), yet both parser variants throw instead
of recovering the one complete record into a geometry. -/
theorem truncated_stl_not_recovered_cex :
    84 ≤ truncatedBuffer.length ∧
    truncatedBuffer.length < 84 + 50 * getWord32 truncatedBuffer 80 ∧
    parseBinarySTL truncatedBuffer =
      .error "RangeError: Offset is outside the bounds of the DataView" ∧
    parseBinarySTLChecked truncatedBuffer =
      .error
        "Binary STL file truncated or invalid triangle count. Expected 184 bytes, got 134 bytes" :=
  ⟨by decide, by decide, by rfl, by rfl⟩

/-- Claim C2 amended: on a truncated buffer missing at least one
non-attribute byte, neither parser variant recovers — the source parser
aborts with a `RangeError` once a float read crosses the end, and the
bounds-checked variant rejects the size mismatch up front, its in-loop
recovery branch never reached. -/
theorem truncated_stl_parsers_fail (data : Bytes)
    (h84 : 84 ≤ data.length)
    (htr : data.length + 2 < 84 + 50 * getWord32 data 80) :
    (∃ e, parseBinarySTL data = .error e) ∧
    (∃ e, parseBinarySTLChecked data = .error e) := by
  obtain ⟨m, hm⟩ : ∃ m, getWord32 data 80 = m + 1 := ⟨getWord32 data 80 - 1, by omega⟩
  have h84' : ¬ data.length < 84 := by omega
  constructor
  · have hoob : readTriangle data m = none := readTriangle_oob data m (by omega)
    have hnone := readTris_none data (m + 1) 0 m (by omega) (by omega) hoob
    simp only [parseBinarySTL, if_neg h84', hm, hnone]
    exact ⟨_, rfl⟩
  · have hcond : data.length < 84 + getWord32 data 80 * 50 := by omega
    simp only [parseBinarySTLChecked, if_neg h84', if_pos hcond]
    exact ⟨_, rfl⟩

/-- Witness for the amended C2 at the concrete truncated buffer. -/
theorem truncated_stl_parsers_fail_witness :
    (84 ≤ truncatedBuffer.length ∧
      truncatedBuffer.length + 2 < 84 + 50 * getWord32 truncatedBuffer 80) ∧
    (∃ e, parseBinarySTL truncatedBuffer = .error e) ∧
    (∃ e, parseBinarySTLChecked truncatedBuffer = .error e) :=
  ⟨⟨by decide, by decide⟩,
    truncated_stl_parsers_fail truncatedBuffer (by decide) (by decide)⟩

/-- Claim C3 counterexample: an `ArrayBuffer` whose decoded header text
begins with `"solid"` is classified as the spec describes (ASCII), but
the decoder dispatches it to the binary parser. -/
theorem ascii_detection_buffer_cex :
    spec_isAsciiSTL (.buf solidHeaderBuffer) = true ∧
    parseSTLDispatch (.buf solidHeaderBuffer) = .binary :=
  ⟨by decide, rfl⟩

/-- Claim C3 amended: the decoder classifies an input as ASCII exactly
when it is a string that, after trimming, begins with `"solid"`;
`ArrayBuffer` inputs always dispatch to the binary parser. -/
theorem ascii_detection_string_only (d : STLData) :
    parseSTLDispatch d = .ascii ↔
      ∃ s, d = .str s ∧ jsStartsWith (jsTrim s) "solid".data = true := by
  cases d with
  | str s =>
    by_cases h : jsStartsWith (jsTrim s) "solid".data <;> simp [parseSTLDispatch, h]
  | buf b => simp [parseSTLDispatch]
